import Mathlib

/-!
Verification of the report-validation and duplicate-detection pipeline of the
civic-issues backend (directory ml-backend-with-image/app of the repository).

Shallow embedding conventions:

* Python dictionaries read from the JSONL dataset become the structure Entry;
  a field read with dict.get becomes an Option, where none models both a
  missing key and an explicit JSON null.
* Python strings are modelled by Lean String, with the byte-level operations
  lower/strip/split reimplemented over List Char so that they reduce in the
  kernel; they agree with Python on ASCII text.
* Python floats are modelled by the rationals they denote; the real-valued
  trigonometry of the haversine computation lives in the reals, so the
  location predicate is noncomputable (classical comparison of reals).
* Fallible operations (perceptual hashing, the external image classifier,
  category detection) are modelled as Except-valued oracles collected in the
  structure Env; an Except.error result models a raised exception, matching
  the try/except structure of the source.
* The modules app/text_rules.py and app/image_classifier.py are imported by
  the source of app/pipeline.py but are not part of the sources available
  here; following the specification they are modelled as oracle fields of
  Env (see the doc comment on Env).
-/

/-! ## Python string primitives, over List Char so they kernel-reduce -/

/-- ASCII whitespace test, the characters Python str.split and str.strip
treat as separators on ASCII input. -/
def isWS (c : Char) : Bool :=
  c.toNat == 32 || c.toNat == 9 || c.toNat == 10 || c.toNat == 13

/-- ASCII lower-casing of one character, agreeing with Python str.lower on
ASCII text. -/
def lowerChar (c : Char) : Char :=
  if 65 ≤ c.toNat ∧ c.toNat ≤ 90 then Char.ofNat (c.toNat + 32) else c

/-- Model of Python str.lower. -/
def pyLower (s : String) : String := String.mk (s.data.map lowerChar)

/-- Model of Python str.strip over the character list. -/
def pyStripList (l : List Char) : List Char :=
  ((l.dropWhile isWS).reverse.dropWhile isWS).reverse

/-- Model of Python str.strip. -/
def pyStrip (s : String) : String := String.mk (pyStripList s.data)

/-- Model of Python str.split with no argument: split on whitespace runs,
discarding empty pieces.  The second argument accumulates the current word
in reverse. -/
def pySplitList : List Char → List Char → List (List Char)
  | [], cur => if cur.isEmpty then [] else [cur.reverse]
  | c :: rest, cur =>
    if isWS c then
      (if cur.isEmpty then pySplitList rest [] else cur.reverse :: pySplitList rest [])
    else pySplitList rest (c :: cur)

/-- Model of Python str.split with no argument. -/
def pySplit (s : String) : List String := (pySplitList s.data []).map String.mk

/-- Join a list of words with single spaces, the model of " ".join. -/
def joinSp : List (List Char) → List Char
  | [] => []
  | [w] => w
  | w :: ws => w ++ ' ' :: joinSp ws

/-- Model of the normalisation " ".join(s.strip().lower().split()) used by
storage.is_duplicate for descriptions (storage.py lines 48 and 58). -/
def pyNormWS (s : String) : String :=
  String.mk (joinSp (pySplitList ((pyStripList s.data).map lowerChar) []))

/-- Model of the Python substring test (the "in" operator on strings),
over character lists. -/
def pyInAux (needle : List Char) : List Char → Bool
  | [] => needle.isEmpty
  | c :: rest => needle.isPrefixOf (c :: rest) || pyInAux needle rest

/-- Model of the Python substring test: pyIn needle hay decides whether
needle occurs contiguously in hay. -/
def pyIn (needle hay : String) : Bool := pyInAux needle.data hay.data

/-- Model of (x or "anon") for an optional Python string: None and the empty
string are falsy and replaced by "anon" (storage.py lines 49 and 57). -/
def pyOrAnon : Option String → String
  | none => "anon"
  | some s => if s == "" then "anon" else s

/-! ## Hash parsing and Hamming distance -/

/-- Value of one hexadecimal digit, upper or lower case, as accepted by
Python int(s, 16). -/
def parseHexDigit (c : Char) : Option Nat :=
  if 48 ≤ c.toNat ∧ c.toNat ≤ 57 then some (c.toNat - 48)
  else if 97 ≤ c.toNat ∧ c.toNat ≤ 102 then some (c.toNat - 87)
  else if 65 ≤ c.toNat ∧ c.toNat ≤ 70 then some (c.toNat - 55)
  else none

/-- Accumulating hexadecimal parser over a character list. -/
def parseHexList : List Char → Nat → Option Nat
  | [], acc => some acc
  | c :: cs, acc =>
    match parseHexDigit c with
    | none => none
    | some d => parseHexList cs (16 * acc + d)

/-- Model of Python int(s, 16) on the canonical digit strings produced by
str of an imagehash value (plain hexadecimal digits; the model does not
reproduce the additional Python forms such as a 0x prefix, an explicit sign
or underscores, none of which occur in stored hashes). -/
def parseHex (s : String) : Option Nat :=
  if s.data.isEmpty then none else parseHexList s.data 0

/-- Stored image_hash field of a ledger record: the JSON value can be a
string (parsed as hexadecimal) or a number (storage.py lines 175 to 178). -/
inductive HashField where
  | str (s : String)
  | num (n : Int)
deriving DecidableEq

/-- Conversion of a stored image_hash to an integer, mirroring storage.py
lines 175 to 178; none models the ValueError/TypeError branch that makes the
scan skip the record. -/
def parseStoredHash : HashField → Option Int
  | .str s => (parseHex s).map Int.ofNat
  | .num n => some n

/-- Number of set bits, via a fuel argument so the definition is structural
and reduces in the kernel; fuel n suffices for the argument n itself. -/
def popCountAux : Nat → Nat → Nat
  | 0, _ => 0
  | _, 0 => 0
  | fuel + 1, n => n % 2 + popCountAux fuel (n / 2)

/-- Number of set bits of a natural number. -/
def popCount (n : Nat) : Nat := popCountAux n n

/-- Hamming distance of two hashes read as bit strings (leading zero bits do
not contribute, so any common fixed width gives the same value). -/
def hammingDistNat (a b : Nat) : Nat := popCount (Nat.xor a b)

/-- Model of Python round(q, 2) (source rounds confidences to two decimal
places; the model uses round-half-up where Python uses round-half-even,
indistinguishable except exactly halfway between two hundredths). -/
def round2 (q : ℚ) : ℚ := ((round (q * 100) : ℤ) : ℚ) / 100

/-! ## Data model -/

/-- Record of one line of data/dataset.jsonl, as read back by
storage._load_accepted_reports.  Every field is optional because the source
reads them with dict.get; none models a missing key or a JSON null.
Coordinates are the rationals denoted by the stored floating point numbers.
Lines that are blank or fail to parse as JSON are skipped by the loader, so
the ledger is modelled as the list of its parseable records. -/
structure Entry where
  report_id : Option String := none
  user_id : Option String := none
  description : Option String := none
  latitude : Option ℚ := none
  longitude : Option ℚ := none
  image_hash : Option HashField := none
  status : Option String := none
  accept : Option Bool := none
  category : Option String := none
  confidence : Option ℚ := none
  urgency : Option String := none
  reason : Option String := none
deriving DecidableEq

/-- Model of storage._load_accepted_reports (storage.py lines 12 to 35):
keep exactly the records with status equal to "accepted" and accept equal to
the boolean true. -/
def loadAccepted (L : List Entry) : List Entry :=
  L.filter (fun report => report.status == some "accepted" && report.accept == some true)

/-! ## storage.py: the three duplicate predicates -/

/-- Model of storage.is_duplicate (storage.py lines 38 to 73).  The store
parameter of the source is ignored by the source itself and omitted.  The
candidate user_id is optional because the pipeline passes a possibly-None
value through. -/
def is_duplicate (user_id : Option String) (description : String) (category : String)
    (L : List Entry) : Bool :=
  let normalized_desc := pyNormWS description
  let user_id_normalized := pyLower (pyOrAnon user_id)
  let category_normalized := pyLower category
  (loadAccepted L).any (fun report =>
    pyLower (pyOrAnon report.user_id) == user_id_normalized &&
    pyNormWS (report.description.getD "") == normalized_desc &&
    pyLower (report.category.getD "") == category_normalized)

/-- Model of storage.is_duplicate_image_from_bytes (storage.py lines 147 to
194).  Image bytes are a list of byte values; the perceptual-hash
computation Image.open + imagehash.phash + int(str(_), 16) is the oracle
phash, whose error result models any exception in that block (caught by the
source, which then returns False).  The threshold parameter is ignored by
the comparison, exactly as in the source, which tests
abs(img_hash_int - report_hash_int) == 0. -/
def is_duplicate_image_from_bytes (phash : List Nat → Except Unit Nat)
    (image_bytes : List Nat) (threshold : Nat) (L : List Entry) : Bool :=
  if image_bytes.isEmpty then false
  else
    match phash image_bytes with
    | .error _ => false
    | .ok img_hash_int =>
      (loadAccepted L).any (fun report =>
        match report.image_hash with
        | none => false
        | some stored =>
          match parseStoredHash stored with
          | none => false
          | some report_hash_int => ((img_hash_int : Int) - report_hash_int).natAbs == 0)

/-- Degrees to radians, the model of math.radians. -/
noncomputable def radians (x : ℝ) : ℝ := x * Real.pi / 180

/-- Model of storage.haversine (storage.py lines 196 to 204): great-circle
distance in meters on a sphere of radius 6371000. -/
noncomputable def haversine (lat1 lon1 lat2 lon2 : ℝ) : ℝ :=
  let rlat1 := radians lat1
  let rlon1 := radians lon1
  let rlat2 := radians lat2
  let rlon2 := radians lon2
  let delta_lat := rlat2 - rlat1
  let delta_lon := rlon2 - rlon1
  let a := Real.sin (delta_lat / 2) ^ 2 +
    Real.cos rlat1 * Real.cos rlat2 * Real.sin (delta_lon / 2) ^ 2
  let c := 2 * Real.arcsin (Real.sqrt a)
  c * 6371000

/-- Model of storage.is_duplicate_location (storage.py lines 206 to 244).
Coordinates are the rationals denoted by the stored floats, compared through
their real values; the description parameter is unused by the source and
kept for shape.  The float(...) conversions of the source are identities in
this model. -/
noncomputable def is_duplicate_location (lat lon : ℚ) (description category : String)
    (threshold : ℝ) (L : List Entry) : Bool :=
  let category_normalized := pyLower category
  (loadAccepted L).any (fun report =>
    pyLower (report.category.getD "") == category_normalized &&
    match report.latitude, report.longitude with
    | some report_lat, some report_lon =>
      decide (haversine (lat : ℝ) (lon : ℝ) (report_lat : ℝ) (report_lon : ℝ) ≤ threshold)
    | _, _ => false)

/-! ## pipeline.py: configuration tables -/

/-- Model of pipeline.CATEGORY_CONFIDENCE_THRESHOLD = 0.1. -/
def CATEGORY_CONFIDENCE_THRESHOLD : ℚ := mkRat 1 10

/-- Model of pipeline.IMAGE_TO_CATEGORY_MAP (pipeline.py lines 20 to 77). -/
def IMAGE_TO_CATEGORY_MAP : List (String × List String) :=
  [("Road & Traffic",
    ["pothole", "damaged road", "illegal parking", "broken footpath",
     "traffic signal not working", "road accident", "road", "street", "traffic",
     "speed breaker", "crosswalk", "footpath", "pavement", "crack", "broken road",
     "road caved", "road sinking", "uneven road", "traffic jam", "congestion",
     "signal", "junction", "crossroad", "accident", "collision", "crash", "hit",
     "speed bump", "divider", "sidewalk", "zebra crossing", "pedestrian", "highway",
     "bridge", "intersection", "pavement", "asphalt"]),
   ("Garbage & Sanitation",
    ["garbage dump", "overflowing dustbin", "open drain", "sewage overflow",
     "dead animal", "toilet issue", "garbage", "trash", "waste", "bin",
     "sanitation", "dirty", "sewage", "cleanliness", "dustbin", "dump", "dumping",
     "garbage pile", "waste pile", "filthy", "unclean", "bad smell", "toxic smell",
     "foul smell", "overflowing bin", "sewer", "manhole", "dead", "animal carcass",
     "dead dog", "dead cat", "dead cow", "dead body", "mosquito", "flies",
     "infection", "disease"]),
   ("Street Lighting",
    ["streetlight not working", "fallen electric pole", "loose wire", "power outage",
     "streetlight", "lamp", "bulb", "pole", "light", "electric pole",
     "street lamp", "lighting", "dark area", "electricity", "power",
     "broken streetlight", "non-working light", "flickering light", "dim light",
     "street lighting", "outdoor lighting", "public lighting", "night lighting",
     "lamp post", "pole light", "not working", "broken light", "flickering",
     "dark", "no lighting", "illumination"]),
   ("Water & Drainage",
    ["waterlogging", "pipe burst", "no water supply", "drainage issue", "flood",
     "drain", "drainage", "sewage", "sewer", "leak", "leaking", "leakage",
     "pipe", "water", "overflow", "water supply", "drainage system",
     "no water", "low pressure", "drinking water", "contaminated water",
     "pipe leak", "broken pipe", "blocked drain", "overflowing drain",
     "stagnant water", "sewage water", "rain water", "water pipe"]),
   ("Parks & Recreation",
    ["tree fallen", "illegal construction", "park maintenance", "encroachment",
     "park", "garden", "playground", "tree", "bench", "grass", "lawn",
     "recreation", "green space", "park area", "garden area", "flooded park",
     "water in park", "park with water", "playground equipment", "walking path",
     "fountain", "pond", "lake", "outdoor space", "public space",
     "children park", "public park", "swing", "slide", "walking track",
     "fallen tree", "broken fence", "garden bench"]),
   ("Public Safety",
    ["fire", "gas leak", "building collapse", "accident site",
     "crime", "robbery", "theft", "violence", "hazard", "danger",
     "safety", "harassment", "emergency", "accident", "smoke", "burning",
     "gas", "cylinder leak", "collapse", "wall collapse", "roof falling",
     "theft", "fight", "assault", "unsafe", "life risk", "explosion"]),
   ("Electricity",
    ["electric", "electricity", "power", "outage", "wire", "transformer",
     "short circuit", "shock", "cable", "meter", "electrical", "voltage", "current",
     "no power", "power cut", "pole", "electric pole", "spark",
     "electrocution", "electric shock", "live wire", "power line"])]

/-- Model of pipeline.GENERIC_IMAGE_LABELS (pipeline.py lines 79 to 81). -/
def GENERIC_IMAGE_LABELS : List String :=
  ["other", "outdoor", "outdoor space", "public space", "area", "scene", "general"]

/-- Model of the Python dict lookup IMAGE_TO_CATEGORY_MAP.get(category, []). -/
def lookupLabels (category : String) : List String :=
  (List.lookup category IMAGE_TO_CATEGORY_MAP).getD []

/-! ## Oracles for the modules absent from the sources -/

/-- Modelled from the spec: environment of external capabilities of
pipeline.py.  The modules app/text_rules.py (detect_category, is_abusive,
detect_urgency, CATEGORY_KEYWORDS) and app/image_classifier.py
(classify_image_from_bytes) are imported by the source but missing from the
available sources, and the perceptual hash comes from the third-party
imagehash library.  Per the specification they are consumed as opaque
capabilities: the CategoryClassifier maps a description to a category and a
confidence and may fail (its error carries the exception message used in the
rejection reason), the AbuseFilter and UrgencyTagger are total, the
CategoryVocabulary is a read-only keyword table, and the image labeler and
the perceptual hash may throw.  All theorems below hold for every
environment, so no behaviour of the missing modules is assumed. -/
structure Env where
  detect_category : String → Except String (String × ℚ)
  is_abusive : String → Bool
  detect_urgency : String → String
  category_keywords : String → List String
  classify_image : List Nat → Except Unit String
  phash : List Nat → Except Unit Nat

/-- Incoming report dictionary as built by main.submit_report: the keys are
always present, so an optional field directly holds the possibly-None value.
Image bytes are empty when no image was supplied (Python None and an empty
byte string are both falsy). -/
structure Report where
  report_id : String
  description : Option String := none
  user_id : Option String := none
  image_bytes : List Nat := []
  latitude : Option ℚ := none
  longitude : Option ℚ := none

/-- Response dictionary returned by the pipeline.  The optional fields
model keys that only some code paths put into the dictionary. -/
structure Response where
  report_id : String
  accept : Bool
  status : String
  category : String
  confidence : ℚ
  urgency : Option String := none
  reason : String
  user_id : Option String := none
  description : Option String := none
  latitude : Option ℚ := none
  longitude : Option ℚ := none
  image_hash : Option String := none

/-- Names of the checks the orchestrator can evaluate, in the source order
of pipeline.classify_report. -/
inductive Check where
  | emptyDesc
  | category
  | abuse
  | textDup
  | locDup
  | imageMatch
  | imageDup
  | urgency
deriving DecidableEq

/-- Fixed order of the orchestrator checks stated by the specification. -/
def CHECK_ORDER : List Check :=
  [.emptyDesc, .category, .abuse, .textDup, .locDup, .imageMatch, .imageDup, .urgency]

/-- Outcome of one run of classify_report: the returned dictionary, the
ledger after the run, and the checks that were evaluated, in order. -/
structure RunResult where
  response : Response
  ledger : List Entry
  trace : List Check

/-! ## pipeline.py: image/category matcher -/

/-- Model of pipeline.image_matches_category_from_bytes (pipeline.py lines
248 to 338).  The outer try/except returns True when the classifier oracle
throws; otherwise the decision ladder of the source is followed literally. -/
def image_matches_category_from_bytes (env : Env) (image_bytes : List Nat)
    (category : String) : Bool :=
  match env.classify_image image_bytes with
  | .error _ => true
  | .ok raw =>
    let image_label := if raw == "" then "other" else pyStrip (pyLower raw)
    if image_label == "" then true
    else
      let allowed_labels := (lookupLabels category).map pyLower
      let category_keywords := (env.category_keywords category).map pyLower
      if image_label == "other" then true
      else if GENERIC_IMAGE_LABELS.contains image_label then true
      else if allowed_labels.contains image_label then true
      else if allowed_labels.any (fun lbl => pyIn lbl image_label || pyIn image_label lbl) then true
      else if category_keywords.any (fun kw => pyIn kw image_label || pyIn image_label kw) then true
      else if allowed_labels.any (fun lbl =>
        (pySplit image_label).any (fun w => (pySplit lbl).contains w)) then true
      else if (pySplit image_label).any (fun word => word.length > 2 &&
        (category_keywords.any (fun kw => pyIn word kw || pyIn kw word) ||
         allowed_labels.any (fun lbl => pyIn word lbl || pyIn lbl word))) then true
      else if allowed_labels.isEmpty && category_keywords.isEmpty then true
      else if !allowed_labels.isEmpty || !category_keywords.isEmpty then false
      else true

/-! ## pipeline.py: ledger append and orchestrator -/

/-- Merge of the report dictionary and a result dictionary into the saved
ledger record, the model of the expression that builds report_for_save in
pipeline.reject and in the acceptance path (result keys override report
keys; image_bytes is removed before saving). -/
def entryOfSave (report : Report) (result : Response) : Entry :=
  { report_id := some result.report_id
    user_id := report.user_id
    description :=
      match result.description with
      | some d => some d
      | none => report.description
    latitude := report.latitude
    longitude := report.longitude
    image_hash := (result.image_hash).map HashField.str
    status := some result.status
    accept := some result.accept
    category := some result.category
    confidence := some result.confidence
    urgency := result.urgency
    reason := some result.reason }

/-- Model of pipeline.reject (pipeline.py lines 344 to 367): build the
rejection dictionary, append the merged record to the ledger, return both.
In this model dataset.save_report always succeeds (the source catches and
ignores a failure of the append). -/
def reject (report : Report) (reason : String) (category : String) (confidence : ℚ)
    (L : List Entry) : Response × List Entry :=
  let result : Response :=
    { report_id := report.report_id
      accept := false
      status := "rejected"
      category := category
      confidence := round2 confidence
      urgency := none
      reason := reason }
  (result, L ++ [entryOfSave report result])

/-- Hexadecimal string of a hash value, the model of str(imagehash value)
up to leading zero padding (which the parse back into an integer ignores). -/
def hexStr (n : Nat) : String := String.mk (Nat.toDigits 16 n)

/-- Acceptance tail of pipeline.classify_report (pipeline.py lines 188 to
236): tag urgency, build the acceptance dictionary, compute and attach the
image hash when an image is present and hashing succeeds, append the merged
record to the ledger. -/
def acceptPath (env : Env) (report : Report) (description : String) (category : String)
    (confidence : ℚ) (user_id : Option String) (L : List Entry) (trace : List Check) :
    RunResult :=
  let urgency := env.detect_urgency description
  let image_hash : Option String :=
    if report.image_bytes.isEmpty then none
    else
      match env.phash report.image_bytes with
      | .ok h => some (hexStr h)
      | .error _ => none
  let result : Response :=
    { report_id := report.report_id
      accept := true
      status := "accepted"
      category := category
      confidence := round2 confidence
      urgency := some urgency
      reason := "Report accepted successfully"
      user_id := user_id
      description := some description
      latitude := report.latitude
      longitude := report.longitude
      image_hash := image_hash }
  ⟨result, L ++ [entryOfSave report result], trace ++ [Check.urgency]⟩

/-- Image block of pipeline.classify_report (pipeline.py lines 141 to 186)
followed by the acceptance tail: when an image is present the category match
runs first and a mismatch rejects immediately; only a matching image reaches
the duplicate check, whose threshold is 0. -/
def imageStage (env : Env) (report : Report) (description : String) (category : String)
    (confidence : ℚ) (user_id : Option String) (L : List Entry) (trace : List Check) :
    RunResult :=
  if report.image_bytes.isEmpty then
    acceptPath env report description category confidence user_id L trace
  else
    if !image_matches_category_from_bytes env report.image_bytes category then
      let r := reject report
        "Image does not match the issue description. Please provide an image related to the reported category."
        category confidence L
      ⟨r.1, r.2, trace ++ [Check.imageMatch]⟩
    else if is_duplicate_image_from_bytes env.phash report.image_bytes 0 L then
      let r := reject report
        "Duplicate image detected. This image has already been used in another report."
        category confidence L
      ⟨r.1, r.2, trace ++ [Check.imageMatch, Check.imageDup]⟩
    else
      acceptPath env report description category confidence user_id L
        (trace ++ [Check.imageMatch, Check.imageDup])

/-- Model of pipeline.classify_report (pipeline.py lines 99 to 242).  The
inner try/except blocks of the source around the text and location
duplicate checks are dead in this model because the two predicates catch
their own exceptions and are total here; the outer catch-all of the source
is likewise unreachable because every failure mode of the model is an
Except value handled at its source-level handler. -/
noncomputable def classify_report (env : Env) (report : Report) (L : List Entry) :
    RunResult :=
  let description := pyStrip (report.description.getD "")
  if description == "" then
    let r := reject report "Description is required" "Other" 0 L
    ⟨r.1, r.2, [Check.emptyDesc]⟩
  else
    match env.detect_category description with
    | .error msg =>
      let r := reject report ("Category detection error: " ++ msg) "Other" 0 L
      ⟨r.1, r.2, [Check.emptyDesc, Check.category]⟩
    | .ok (category, confidence) =>
      if category == "Other" || confidence < CATEGORY_CONFIDENCE_THRESHOLD then
        let r := reject report
          "Unable to determine issue category. Please provide more details."
          category confidence L
        ⟨r.1, r.2, [Check.emptyDesc, Check.category]⟩
      else if env.is_abusive description then
        let r := reject report "Abusive language detected" category confidence L
        ⟨r.1, r.2, [Check.emptyDesc, Check.category, Check.abuse]⟩
      else
        let user_id := report.user_id
        if is_duplicate user_id description category L then
          let r := reject report "You have already submitted this report."
            category confidence L
          ⟨r.1, r.2, [Check.emptyDesc, Check.category, Check.abuse, Check.textDup]⟩
        else
          match report.latitude, report.longitude with
          | some latitude, some longitude =>
            if is_duplicate_location latitude longitude description category 10 L then
              let r := reject report
                "A similar issue has already been reported at this location."
                category confidence L
              ⟨r.1, r.2,
                [Check.emptyDesc, Check.category, Check.abuse, Check.textDup, Check.locDup]⟩
            else
              imageStage env report description category confidence user_id L
                [Check.emptyDesc, Check.category, Check.abuse, Check.textDup, Check.locDup]
          | _, _ =>
            imageStage env report description category confidence user_id L
              [Check.emptyDesc, Check.category, Check.abuse, Check.textDup]

/-! ## main.py: response shaping around the orchestrator -/

/-- Model of the classification section of main.submit_report (main.py lines
199 to 231): the orchestrator result is returned as-is, and an exception
escaping the orchestrator is converted to the fixed error response with a
200-status body. -/
def submit_report_catch (report_id : String) (mlResult : Except String Response) : Response :=
  match mlResult with
  | .ok result => result
  | .error msg =>
    { report_id := report_id
      accept := false
      status := "error"
      category := "Other"
      confidence := 0
      urgency := none
      reason := "ML classification error: " ++ msg }

/-! ## Theorems -/

/-- Helper: the accepted-records loader is unchanged by first deleting every
record whose accept field is not the boolean true. -/
theorem loadAccepted_filter_accept (L : List Entry) :
    loadAccepted (L.filter (fun e => e.accept == some true)) = loadAccepted L := by
  unfold loadAccepted
  rw [List.filter_filter]
  apply List.filter_congr
  intro e _
  cases hs : (e.status == some "accepted") <;> cases ha : (e.accept == some true) <;>
    simp [hs, ha]

/-- C2: none of the three duplicate predicates changes its result when every
ledger record whose accept field is not true is deleted, so a rejected
submission never counts as precedent. -/
theorem rejected_entries_never_count (u : Option String) (d c : String)
    (phash : List Nat → Except Unit Nat) (bytes : List Nat) (t : Nat)
    (lat lon : ℚ) (d2 c2 : String) (thr : ℝ) (L : List Entry) :
    is_duplicate u d c (L.filter (fun e => e.accept == some true)) = is_duplicate u d c L ∧
    is_duplicate_location lat lon d2 c2 thr (L.filter (fun e => e.accept == some true)) =
      is_duplicate_location lat lon d2 c2 thr L ∧
    is_duplicate_image_from_bytes phash bytes t (L.filter (fun e => e.accept == some true)) =
      is_duplicate_image_from_bytes phash bytes t L := by
  refine ⟨?_, ?_, ?_⟩
  · unfold is_duplicate
    rw [loadAccepted_filter_accept]
  · unfold is_duplicate_location
    rw [loadAccepted_filter_accept]
  · unfold is_duplicate_image_from_bytes
    rw [loadAccepted_filter_accept]

/-- Ledger record used to exhibit the threshold bug of the image-duplicate
predicate: an accepted record whose stored hash is the hexadecimal string
"1". -/
def c1Entry : Entry :=
  { image_hash := some (HashField.str "1"), status := some "accepted", accept := some true }

/-- C1: the image-duplicate predicate does not honour its threshold
parameter.  With threshold 1, a candidate image whose perceptual hash is 0
and an accepted record whose stored hash is 1 are at Hamming distance 1,
which is at most the threshold, yet the predicate answers false, because the
source compares abs(img_hash_int - report_hash_int) == 0 regardless of the
threshold. -/
theorem image_dup_threshold_ignored :
    is_duplicate_image_from_bytes (fun _ => Except.ok 0) [7] 1 [c1Entry] = false ∧
    c1Entry.status = some "accepted" ∧
    c1Entry.accept = some true ∧
    c1Entry.image_hash = some (HashField.str "1") ∧
    parseStoredHash (HashField.str "1") = some 1 ∧
    hammingDistNat 0 1 ≤ 1 := by
  decide

/-- C4: when an exception escapes the orchestrator, the response handed to
the caller has status error, accept false, category Other and confidence
zero. -/
theorem orchestrator_error_response (report_id msg : String) :
    (submit_report_catch report_id (Except.error msg)).status = "error" ∧
    (submit_report_catch report_id (Except.error msg)).accept = false ∧
    (submit_report_catch report_id (Except.error msg)).category = "Other" ∧
    (submit_report_catch report_id (Except.error msg)).confidence = 0 :=
  ⟨rfl, rfl, rfl, rfl⟩

/-- C6: the text-duplicate predicate answers true exactly when some accepted
ledger record agrees with the candidate on the normalised user id, the
normalised description (lower-cased, surrounding and repeated whitespace
collapsed) and the lower-cased category; in particular a description that
differs in any way other than case or whitespace never produces a match. -/
theorem text_dup_iff (u : Option String) (d c : String) (L : List Entry) :
    is_duplicate u d c L = true ↔
      ∃ e ∈ L, (e.status = some "accepted" ∧ e.accept = some true) ∧
        pyLower (pyOrAnon e.user_id) = pyLower (pyOrAnon u) ∧
        pyNormWS (e.description.getD "") = pyNormWS d ∧
        pyLower (e.category.getD "") = pyLower c := by
  unfold is_duplicate loadAccepted
  simp [List.any_eq_true, List.mem_filter, and_assoc]

/-- C10: a missing user id and the literal string anon in any letter case
normalise alike, so the text-duplicate predicate cannot distinguish them,
on the candidate side and on the stored side. -/
theorem missing_user_id_is_anon (L : List Entry) (d c : String) (s : String)
    (h : pyLower s = "anon") :
    is_duplicate none d c L = is_duplicate (some s) d c L ∧
    ∀ (e : Entry) (rest : List Entry) (u : Option String),
      is_duplicate u d c ({ e with user_id := none } :: rest) =
        is_duplicate u d c ({ e with user_id := some s } :: rest) := by
  have key : pyLower (pyOrAnon (some s)) = "anon" := by
    by_cases hs : s = ""
    · subst hs; decide
    · have hne : pyOrAnon (some s) = s := by simp [pyOrAnon, hs]
      rw [hne, h]
  have key2 : pyLower (pyOrAnon none) = "anon" := by decide
  constructor
  · unfold is_duplicate
    rw [key, key2]
  · intro e rest u
    unfold is_duplicate loadAccepted
    simp only [List.filter_cons]
    split
    · simp only [List.any_cons, key, key2]
    · rfl

/-- C10 witness: instantiation at the empty ledger and the user id AnOn. -/
theorem missing_user_id_is_anon_witness :
    is_duplicate none "d" "c" [] = is_duplicate (some "AnOn") "d" "c" [] :=
  (missing_user_id_is_anon [] "d" "c" "AnOn" (by decide)).1

/-- Helper: a scan with the constantly false predicate finds nothing. -/
theorem any_const_false (l : List String) : (l.any fun _ => false) = false := by
  induction l with
  | nil => rfl
  | cons x xs ih => simp [List.any_cons, ih]

/-- C8: the image/category matcher never rejects on uncertainty: a throwing
classifier, an empty or whitespace label, the sentinel other, a generic
label, and a category with neither allowed labels nor keywords all yield
true. -/
theorem matcher_permissive (env : Env) (bytes : List Nat) (category : String) :
    (env.classify_image bytes = Except.error () →
      image_matches_category_from_bytes env bytes category = true) ∧
    (∀ raw, env.classify_image bytes = Except.ok raw →
      pyStrip (pyLower raw) = "" →
      image_matches_category_from_bytes env bytes category = true) ∧
    (∀ raw, env.classify_image bytes = Except.ok raw →
      ((if raw == "" then "other" else pyStrip (pyLower raw)) = "other" ∨
        GENERIC_IMAGE_LABELS.contains
          (if raw == "" then "other" else pyStrip (pyLower raw)) = true) →
      image_matches_category_from_bytes env bytes category = true) ∧
    (lookupLabels category = [] → env.category_keywords category = [] →
      image_matches_category_from_bytes env bytes category = true) := by
  refine ⟨?_, ?_, ?_, ?_⟩
  · intro h
    unfold image_matches_category_from_bytes
    rw [h]
  · intro raw h hs
    unfold image_matches_category_from_bytes
    rw [h]
    dsimp only
    cases hr : (raw == "") with
    | true => rfl
    | false =>
      rw [hs]
      rfl
  · intro raw h hor
    unfold image_matches_category_from_bytes
    rw [h]
    dsimp only
    rcases hor with h1 | h1
    · rw [h1]
      rfl
    · generalize hl : (if raw == "" then "other" else pyStrip (pyLower raw)) = l at h1 ⊢
      cases he : (l == "") with
      | true => rfl
      | false =>
        cases ho : (l == "other") with
        | true => rfl
        | false =>
          rw [if_pos h1]
          rfl
  · intro h1 h2
    unfold image_matches_category_from_bytes
    cases hc : env.classify_image bytes with
    | error e => rfl
    | ok raw =>
      dsimp only
      rw [h1, h2]
      generalize (if raw == "" then "other" else pyStrip (pyLower raw)) = l
      cases he : (l == "") with
      | true => simp [he]
      | false =>
        cases ho : (l == "other") with
        | true => simp [he, ho]
        | false =>
          cases hg : (GENERIC_IMAGE_LABELS.contains l) with
          | true => simp [he, ho, hg]
          | false => simp [he, ho, hg, any_const_false]

/-- C8 witness: a whitespace-only label, a generic label in upper case, a
throwing classifier, and a category with no configured vocabulary are all
accepted. -/
theorem matcher_permissive_witness :
    image_matches_category_from_bytes
      ⟨fun _ => Except.ok ("c", 1), fun _ => false, fun _ => "n", fun _ => [],
        fun _ => Except.ok " ", fun _ => Except.ok 0⟩ [1] "Nope" = true ∧
    image_matches_category_from_bytes
      ⟨fun _ => Except.ok ("c", 1), fun _ => false, fun _ => "n", fun _ => [],
        fun _ => Except.ok "SCENE", fun _ => Except.ok 0⟩ [1] "Road & Traffic" = true ∧
    image_matches_category_from_bytes
      ⟨fun _ => Except.ok ("c", 1), fun _ => false, fun _ => "n", fun _ => [],
        fun _ => Except.error (), fun _ => Except.ok 0⟩ [1] "Public Safety" = true ∧
    image_matches_category_from_bytes
      ⟨fun _ => Except.ok ("c", 1), fun _ => false, fun _ => "n", fun _ => [],
        fun _ => Except.ok "xyz", fun _ => Except.ok 0⟩ [1] "ZZZ" = true :=
  ⟨(matcher_permissive _ [1] "Nope").2.1 " " rfl (by decide),
   (matcher_permissive _ [1] "Road & Traffic").2.2.1 "SCENE" rfl (Or.inr (by decide)),
   (matcher_permissive _ [1] "Public Safety").1 rfl,
   (matcher_permissive _ [1] "ZZZ").2.2.2 (by decide) rfl⟩

/-- Helper: every branch of the image stage appends exactly one merged
record whose status and accept fields echo the response. -/
theorem imageStage_ledger (env : Env) (report : Report) (d c : String) (cf : ℚ)
    (u : Option String) (L : List Entry) (t : List Check) :
    ∃ e : Entry, (imageStage env report d c cf u L t).ledger = L ++ [e] ∧
      e.status = some (imageStage env report d c cf u L t).response.status ∧
      e.accept = some (imageStage env report d c cf u L t).response.accept := by
  unfold imageStage acceptPath reject
  split_ifs <;> exact ⟨_, rfl, rfl, rfl⟩

/-- C9: one run of the orchestrator appends exactly one record to the
ledger, whatever the outcome, and leaves every existing record in place; the
appended record carries the status and accept fields of the response. -/
theorem one_append_per_run (env : Env) (report : Report) (L : List Entry) :
    ∃ e : Entry, (classify_report env report L).ledger = L ++ [e] ∧
      e.status = some (classify_report env report L).response.status ∧
      e.accept = some (classify_report env report L).response.accept := by
  unfold classify_report
  dsimp only
  split
  · exact ⟨_, rfl, rfl, rfl⟩
  · split
    · exact ⟨_, rfl, rfl, rfl⟩
    · split
      · exact ⟨_, rfl, rfl, rfl⟩
      · split
        · exact ⟨_, rfl, rfl, rfl⟩
        · split
          · exact ⟨_, rfl, rfl, rfl⟩
          · split
            · split
              · exact ⟨_, rfl, rfl, rfl⟩
              · exact imageStage_ledger env report _ _ _ _ L _
            · exact imageStage_ledger env report _ _ _ _ L _

/-- Helper: the image stage appends one of four check suffixes to its
incoming trace. -/
theorem imageStage_trace_cases (env : Env) (report : Report) (d c : String) (cf : ℚ)
    (u : Option String) (L : List Entry) (t : List Check) :
    (imageStage env report d c cf u L t).trace = t ++ [Check.urgency] ∨
    (imageStage env report d c cf u L t).trace = t ++ [Check.imageMatch] ∨
    (imageStage env report d c cf u L t).trace = t ++ [Check.imageMatch, Check.imageDup] ∨
    (imageStage env report d c cf u L t).trace =
      t ++ [Check.imageMatch, Check.imageDup, Check.urgency] := by
  unfold imageStage acceptPath
  split_ifs
  · exact Or.inl rfl
  · exact Or.inr (Or.inl rfl)
  · exact Or.inr (Or.inr (Or.inl rfl))
  · refine Or.inr (Or.inr (Or.inr ?_))
    dsimp only
    rw [List.append_assoc]
    rfl

/-- C7: the location-duplicate predicate answers true exactly when some
accepted ledger record with the same lower-cased category has both
coordinates present at haversine distance at most the threshold; the
haversine function is the stated arcsin formula on the 6371000 m sphere; and
the orchestrator skips the location check entirely when the candidate lacks
a coordinate. -/
theorem location_dup_iff (lat lon : ℚ) (d c : String) (thr : ℝ) (L : List Entry)
    (env : Env) (report : Report) :
    (is_duplicate_location lat lon d c thr L = true ↔
      ∃ e ∈ L, (e.status = some "accepted" ∧ e.accept = some true) ∧
        pyLower (e.category.getD "") = pyLower c ∧
        ∃ rla rlo, e.latitude = some rla ∧ e.longitude = some rlo ∧
          haversine (lat : ℝ) (lon : ℝ) (rla : ℝ) (rlo : ℝ) ≤ thr) ∧
    (∀ a b x y : ℝ, haversine a b x y =
      2 * Real.arcsin (Real.sqrt (Real.sin ((radians x - radians a) / 2) ^ 2 +
        Real.cos (radians a) * Real.cos (radians x) *
          Real.sin ((radians y - radians b) / 2) ^ 2)) * 6371000) ∧
    ((report.latitude = none ∨ report.longitude = none) →
      Check.locDup ∉ (classify_report env report L).trace) := by
  refine ⟨?_, fun a b x y => rfl, ?_⟩
  · have hm : ∀ e : Entry,
        ((match e.latitude, e.longitude with
          | some report_lat, some report_lon =>
            decide (haversine (lat : ℝ) (lon : ℝ) (report_lat : ℝ) (report_lon : ℝ) ≤ thr)
          | _, _ => false) = true) ↔
        ∃ rla rlo, e.latitude = some rla ∧ e.longitude = some rlo ∧
          haversine (lat : ℝ) (lon : ℝ) (rla : ℝ) (rlo : ℝ) ≤ thr := by
      intro e
      rcases e.latitude with _ | rla <;> rcases e.longitude with _ | rlo <;> simp
    unfold is_duplicate_location loadAccepted
    simp only [List.any_eq_true, List.mem_filter, Bool.and_eq_true, beq_iff_eq, hm]
    constructor
    · rintro ⟨e, ⟨heL, hs, ha⟩, hcat, hrest⟩
      exact ⟨e, heL, ⟨hs, ha⟩, hcat, hrest⟩
    · rintro ⟨e, heL, ⟨hs, ha⟩, hcat, hrest⟩
      exact ⟨e, ⟨heL, hs, ha⟩, hcat, hrest⟩
  · intro h
    unfold classify_report
    dsimp only
    rcases h with h | h
    · rw [h]
      split
      · simp
      · split
        · simp
        · split
          · simp
          · split
            · simp
            · split
              · simp
              · rcases imageStage_trace_cases env report _ _ _ _ L _ with h4 | h4 | h4 | h4 <;>
                  rw [h4] <;> simp
    · rw [h]
      split
      · simp
      · split
        · simp
        · split
          · simp
          · split
            · simp
            · split
              · simp
              · rcases report.latitude with _ | la
                · rcases imageStage_trace_cases env report _ _ _ _ L _ with h4 | h4 | h4 | h4 <;>
                    rw [h4] <;> simp
                · rcases imageStage_trace_cases env report _ _ _ _ L _ with h4 | h4 | h4 | h4 <;>
                    rw [h4] <;> simp

/-- C7 witness: a report without coordinates never evaluates the location
check. -/
theorem location_dup_iff_witness :
    Check.locDup ∉ (classify_report
      ⟨fun _ => Except.ok ("RoadX", 1), fun _ => false, fun _ => "n", fun _ => [],
        fun _ => Except.error (), fun _ => Except.error ()⟩
      { report_id := "r", description := some "x" } []).trace :=
  (location_dup_iff 0 0 "d" "c" 10 [] _ _).2.2 (Or.inl rfl)

/-- C3: when the external classifier and the perceptual hash both throw on a
present image, the matcher answers true and the duplicate predicate answers
false (fail-open), and a run that reaches the image stage under these
failures terminates accepted; the failures never surface as a rejection or
an error. -/
theorem image_failures_fail_open (env : Env) (report : Report) (L : List Entry)
    (c : String) (q : ℚ)
    (hd : (pyStrip (report.description.getD "") == "") = false)
    (hcat : env.detect_category (pyStrip (report.description.getD "")) = Except.ok (c, q))
    (hother : (c == "Other") = false)
    (hconf : decide (q < CATEGORY_CONFIDENCE_THRESHOLD) = false)
    (hab : env.is_abusive (pyStrip (report.description.getD "")) = false)
    (htd : is_duplicate report.user_id (pyStrip (report.description.getD "")) c L = false)
    (hld : ∀ la lo, report.latitude = some la → report.longitude = some lo →
      is_duplicate_location la lo (pyStrip (report.description.getD "")) c 10 L = false)
    (himg : report.image_bytes.isEmpty = false)
    (hcls : env.classify_image report.image_bytes = Except.error ())
    (hph : env.phash report.image_bytes = Except.error ()) :
    image_matches_category_from_bytes env report.image_bytes c = true ∧
    is_duplicate_image_from_bytes env.phash report.image_bytes 0 L = false ∧
    (classify_report env report L).response.status = "accepted" ∧
    (classify_report env report L).response.accept = true := by
  have h1 : image_matches_category_from_bytes env report.image_bytes c = true := by
    unfold image_matches_category_from_bytes
    rw [hcls]
  have h2 : is_duplicate_image_from_bytes env.phash report.image_bytes 0 L = false := by
    unfold is_duplicate_image_from_bytes
    rw [himg, hph]
    rfl
  have hstage : ∀ t, imageStage env report (pyStrip (report.description.getD "")) c q
      report.user_id L t =
      acceptPath env report (pyStrip (report.description.getD "")) c q report.user_id L
        (t ++ [Check.imageMatch, Check.imageDup]) := by
    intro t
    unfold imageStage
    rw [himg, h1, h2]
    rfl
  have hrun : ∃ t, classify_report env report L =
      acceptPath env report (pyStrip (report.description.getD "")) c q report.user_id L t := by
    simp only [classify_report]
    rw [hd, hcat]
    dsimp only
    rw [hother, hconf, hab, htd]
    rcases hLa : report.latitude with _ | la
    · exact ⟨_, hstage _⟩
    · rcases hLo : report.longitude with _ | lo
      · exact ⟨_, hstage _⟩
      · dsimp only
        rw [hld la lo hLa hLo]
        exact ⟨_, hstage _⟩
  obtain ⟨t, ht⟩ := hrun
  refine ⟨h1, h2, ?_, ?_⟩ <;> rw [ht] <;> rfl

/-- C3 witness: a concrete run with both image oracles throwing is accepted. -/
theorem image_failures_fail_open_witness :
    image_matches_category_from_bytes
      ⟨fun _ => Except.ok ("RoadX", 1), fun _ => false, fun _ => "normal", fun _ => [],
        fun _ => Except.error (), fun _ => Except.error ()⟩ [5] "RoadX" = true ∧
    is_duplicate_image_from_bytes (fun _ => Except.error ()) [5] 0 [] = false ∧
    (classify_report
      ⟨fun _ => Except.ok ("RoadX", 1), fun _ => false, fun _ => "normal", fun _ => [],
        fun _ => Except.error (), fun _ => Except.error ()⟩
      { report_id := "r1", description := some "pothole here", image_bytes := [5] }
      []).response.status = "accepted" ∧
    (classify_report
      ⟨fun _ => Except.ok ("RoadX", 1), fun _ => false, fun _ => "normal", fun _ => [],
        fun _ => Except.error (), fun _ => Except.error ()⟩
      { report_id := "r1", description := some "pothole here", image_bytes := [5] }
      []).response.accept = true :=
  image_failures_fail_open
    ⟨fun _ => Except.ok ("RoadX", 1), fun _ => false, fun _ => "normal", fun _ => [],
      fun _ => Except.error (), fun _ => Except.error ()⟩
    { report_id := "r1", description := some "pothole here", image_bytes := [5] }
    [] "RoadX" 1 (by decide) rfl (by decide) (by decide) rfl
    (by decide) (fun la lo hla _ => Option.noConfusion hla) (by decide) rfl rfl

/-- Helper: when the image stage evaluated the duplicate check, the matcher
had answered true. -/
theorem imageStage_dup_implies (env : Env) (report : Report) (d c : String) (cf : ℚ)
    (u : Option String) (L : List Entry) (t : List Check)
    (ht : Check.imageDup ∉ t) :
    Check.imageDup ∈ (imageStage env report d c cf u L t).trace →
    image_matches_category_from_bytes env report.image_bytes c = true := by
  unfold imageStage
  split_ifs with hA hB hC
  · intro hm
    exfalso
    rw [show (acceptPath env report d c cf u L t).trace = t ++ [Check.urgency] from rfl] at hm
    rcases List.mem_append.mp hm with hx | hx
    · exact ht hx
    · simp at hx
  · intro hm
    dsimp only at hm
    exfalso
    rcases List.mem_append.mp hm with hx | hx
    · exact ht hx
    · simp at hx
  · intro _
    cases hM : image_matches_category_from_bytes env report.image_bytes c
    · exact absurd (by rw [hM]; rfl) hB
    · rfl
  · intro _
    cases hM : image_matches_category_from_bytes env report.image_bytes c
    · exact absurd (by rw [hM]; rfl) hB
    · rfl

/-- Helper: a mismatching image makes the image stage reject with the
mismatch reason and without evaluating the duplicate check. -/
theorem imageStage_mismatch (env : Env) (report : Report) (d c : String) (cf : ℚ)
    (u : Option String) (L : List Entry) (t : List Check)
    (hmm : image_matches_category_from_bytes env report.image_bytes c = false)
    (ht1 : Check.imageMatch ∉ t) (ht2 : Check.imageDup ∉ t)
    (hmt : Check.imageMatch ∈ (imageStage env report d c cf u L t).trace) :
    (imageStage env report d c cf u L t).response.status = "rejected" ∧
    (imageStage env report d c cf u L t).response.reason =
      "Image does not match the issue description. Please provide an image related to the reported category." ∧
    Check.imageDup ∉ (imageStage env report d c cf u L t).trace := by
  unfold imageStage at hmt ⊢
  rw [hmm] at hmt ⊢
  split_ifs at hmt ⊢ with hA hB hC
  · exfalso
    rw [show (acceptPath env report d c cf u L t).trace = t ++ [Check.urgency] from rfl] at hmt
    rcases List.mem_append.mp hmt with hx | hx
    · exact ht1 hx
    · simp at hx
  · refine ⟨rfl, rfl, ?_⟩
    dsimp only
    intro hx
    rcases List.mem_append.mp hx with hy | hy
    · exact ht2 hy
    · simp at hy
  · exact absurd rfl hB
  · exact absurd rfl hB

/-- C5: the checks of one run are evaluated in the fixed specification
order, the image-duplicate check is evaluated only after the matcher has
answered true for the detected category, and a run whose matcher answers
false for the detected category after reaching the image stage is rejected
with the mismatch reason without evaluating the image-duplicate check. -/
theorem check_order_and_image_gate (env : Env) (report : Report) (L : List Entry) :
    List.Sublist (classify_report env report L).trace CHECK_ORDER ∧
    (Check.imageDup ∈ (classify_report env report L).trace →
      ∃ c q, env.detect_category (pyStrip (report.description.getD "")) = Except.ok (c, q) ∧
        image_matches_category_from_bytes env report.image_bytes c = true) ∧
    (∀ c q, env.detect_category (pyStrip (report.description.getD "")) = Except.ok (c, q) →
      Check.imageMatch ∈ (classify_report env report L).trace →
      image_matches_category_from_bytes env report.image_bytes c = false →
      (classify_report env report L).response.status = "rejected" ∧
      (classify_report env report L).response.reason =
        "Image does not match the issue description. Please provide an image related to the reported category." ∧
      Check.imageDup ∉ (classify_report env report L).trace) := by
  have key : ∀ r : RunResult, classify_report env report L = r →
      List.Sublist r.trace CHECK_ORDER ∧
      (Check.imageDup ∈ r.trace →
        ∃ c q, env.detect_category (pyStrip (report.description.getD "")) = Except.ok (c, q) ∧
          image_matches_category_from_bytes env report.image_bytes c = true) ∧
      (∀ c q, env.detect_category (pyStrip (report.description.getD "")) = Except.ok (c, q) →
        Check.imageMatch ∈ r.trace →
        image_matches_category_from_bytes env report.image_bytes c = false →
        r.response.status = "rejected" ∧
        r.response.reason =
          "Image does not match the issue description. Please provide an image related to the reported category." ∧
        Check.imageDup ∉ r.trace) := by
    intro r hr
    simp only [classify_report] at hr
    split at hr
    · subst hr
      refine ⟨(by decide : List.Sublist [Check.emptyDesc] CHECK_ORDER), ?_, ?_⟩
      · intro hmem
        simp at hmem
      · intro c q hdet hmatch hmm2
        simp at hmatch
    · split at hr
      · subst hr
        rename_i msg heq
        refine ⟨(by decide : List.Sublist [Check.emptyDesc, Check.category] CHECK_ORDER), ?_, ?_⟩
        · intro hmem
          simp at hmem
        · intro c q hdet hmatch hmm2
          rw [heq] at hdet
          exact Except.noConfusion hdet
      · rename_i cat conf heq
        split at hr
        · subst hr
          refine ⟨(by decide : List.Sublist [Check.emptyDesc, Check.category] CHECK_ORDER), ?_, ?_⟩
          · intro hmem
            simp at hmem
          · intro c q hdet hmatch hmm2
            simp at hmatch
        · split at hr
          · subst hr
            refine ⟨(by decide : List.Sublist [Check.emptyDesc, Check.category, Check.abuse] CHECK_ORDER), ?_, ?_⟩
            · intro hmem
              simp at hmem
            · intro c q hdet hmatch hmm2
              simp at hmatch
          · split at hr
            · subst hr
              refine ⟨(by decide : List.Sublist [Check.emptyDesc, Check.category, Check.abuse, Check.textDup] CHECK_ORDER), ?_, ?_⟩
              · intro hmem
                simp at hmem
              · intro c q hdet hmatch hmm2
                simp at hmatch
            · split at hr
              · split at hr
                · subst hr
                  refine ⟨(by decide : List.Sublist [Check.emptyDesc, Check.category, Check.abuse, Check.textDup, Check.locDup] CHECK_ORDER), ?_, ?_⟩
                  · intro hmem
                    simp at hmem
                  · intro c q hdet hmatch hmm2
                    simp at hmatch
                · subst hr
                  refine ⟨?_, ?_, ?_⟩
                  · rcases imageStage_trace_cases env report _ _ _ _ L _ with h4 | h4 | h4 | h4 <;>
                      rw [h4] <;> decide
                  · intro hmem
                    exact ⟨cat, conf, heq,
                      imageStage_dup_implies env report _ cat _ _ L _ (by decide) hmem⟩
                  · intro c q hdet hmatch hmm2
                    rw [heq] at hdet
                    injection hdet with h5
                    injection h5 with h6 h7
                    subst h6
                    exact imageStage_mismatch env report _ cat _ _ L _ hmm2 (by decide)
                      (by decide) hmatch
              · subst hr
                refine ⟨?_, ?_, ?_⟩
                · rcases imageStage_trace_cases env report _ _ _ _ L _ with h4 | h4 | h4 | h4 <;>
                    rw [h4] <;> decide
                · intro hmem
                  exact ⟨cat, conf, heq,
                    imageStage_dup_implies env report _ cat _ _ L _ (by decide) hmem⟩
                · intro c q hdet hmatch hmm2
                  rw [heq] at hdet
                  injection hdet with h5
                  injection h5 with h6 h7
                  subst h6
                  exact imageStage_mismatch env report _ cat _ _ L _ hmm2 (by decide)
                    (by decide) hmatch
  exact key _ rfl

/-- C5 witness: a concrete run whose image label matches nothing configured
is rejected with the mismatch reason and never evaluates the
image-duplicate check. -/
theorem check_order_and_image_gate_witness :
    (classify_report
      ⟨fun _ => Except.ok ("X", 1), fun _ => false, fun _ => "n", fun _ => ["qqq"],
        fun _ => Except.ok "zz", fun _ => Except.ok 0⟩
      { report_id := "r2", description := some "hello", image_bytes := [3] }
      []).response.status = "rejected" ∧
    (classify_report
      ⟨fun _ => Except.ok ("X", 1), fun _ => false, fun _ => "n", fun _ => ["qqq"],
        fun _ => Except.ok "zz", fun _ => Except.ok 0⟩
      { report_id := "r2", description := some "hello", image_bytes := [3] }
      []).response.reason =
      "Image does not match the issue description. Please provide an image related to the reported category." ∧
    Check.imageDup ∉ (classify_report
      ⟨fun _ => Except.ok ("X", 1), fun _ => false, fun _ => "n", fun _ => ["qqq"],
        fun _ => Except.ok "zz", fun _ => Except.ok 0⟩
      { report_id := "r2", description := some "hello", image_bytes := [3] }
      []).trace :=
  (check_order_and_image_gate
    ⟨fun _ => Except.ok ("X", 1), fun _ => false, fun _ => "n", fun _ => ["qqq"],
      fun _ => Except.ok "zz", fun _ => Except.ok 0⟩
    { report_id := "r2", description := some "hello", image_bytes := [3] }
    []).2.2 "X" 1 rfl (by decide) (by decide)
